import Mathlib

/-!
Verification of the `curioso` host-probe library against its design spec.

The Python sources (`src/curioso/_utils.py`, `src/curioso/app.py`,
`src/curioso/__init__.py`) are shallowly embedded below.  External
collaborators (the filesystem, environment variables, spawned processes,
`platform.*` stdlib calls) are passed in explicitly as environment records,
exactly as the spec treats them ("out of scope, specified only at their
interface").  Python strings are modelled as Lean `String`/`List Char`,
Python `None` as `Option`, raised exceptions as `Except PyErr`.
-/

namespace Curioso

/-- Python exception kinds raised by the embedded code. -/
inductive PyErr where
  | fileNotFound
  | valueError
  | osError
  deriving DecidableEq, Repr

/-! ## Python string semantics helpers -/

/-- Characters removed by Python's `str.strip()` (ASCII whitespace). -/
def pyIsSpace (c : Char) : Bool :=
  c == ' ' || c == '\t' || c == '\n' || c == '\r' || c == '\x0b' || c == '\x0c'

/-- Python `str.strip()` on a character list. -/
def pyStrip (l : List Char) : List Char :=
  ((l.dropWhile pyIsSpace).reverse.dropWhile pyIsSpace).reverse

/-- Python `str.strip()` on a `String`. -/
def pyStripS (s : String) : String := ⟨pyStrip s.toList⟩

/-- Python `str.lower()` on a character list (ASCII inputs). -/
def lowerL (l : List Char) : List Char := l.map Char.toLower

/-- Python `str.lower()` on a `String`. -/
def lowerS (s : String) : String := ⟨lowerL s.toList⟩

/-- Python's `needle in hay` substring test on character lists. -/
def occursIn (needle : List Char) : List Char → Bool
  | [] => needle.isEmpty
  | c :: t => needle.isPrefixOf (c :: t) || occursIn needle t

/-- Python's `needle in hay` substring test on strings. -/
def containsS (hay needle : String) : Bool := occursIn needle.toList hay.toList

/-- Python `str.split(sep)` for a one-character separator
(`"".split(sep) = [""]`, exactly as in Python). -/
def pySplitChar (sep : Char) : List Char → List (List Char)
  | [] => [[]]
  | c :: t =>
    match pySplitChar sep t with
    | h :: r => if c == sep then [] :: h :: r else (c :: h) :: r
    | [] => if c == sep then [[], []] else [[c]]

/-- Python `str.splitlines()` for `'\n'`-separated content: like splitting on
`'\n'` but without a trailing empty line. -/
def pySplitlines (s : String) : List (List Char) :=
  let ps := pySplitChar '\n' s.toList
  match ps.getLast? with
  | some [] => ps.dropLast
  | _ => ps

/-- Python slicing `l[a:b]` with negative-index normalisation. -/
def pySlice (l : List Char) (a b : Int) : List Char :=
  let n : Int := l.length
  let norm : Int → Nat := fun i => (if i < 0 then max (n + i) 0 else min i n).toNat
  (l.drop (norm a)).take (norm b - norm a)

/-- Python truthiness of `os.environ.get(...)`: present and non-empty. -/
def truthyEnvVar (o : Option String) : Bool :=
  match o with
  | some s => !(s == "")
  | none => false

/-- Python `a or b` for an optional string `a` (used for `executable or argv[0]`). -/
def pyOrStr (o : Option String) (d : String) : String :=
  match o with
  | some s => if s == "" then d else s
  | none => d

/-- `pathlib.Path(p).name`: the final path component (text after the last `/`). -/
def pathName (s : String) : List Char :=
  s.toList.foldl (fun acc c => if c == '/' then [] else acc ++ [c]) []

/-! ## `_utils.py` -/

/-- Outcome of the underlying `subprocess.run` call, as seen by `run_cmd`'s
`try` block: normal completion, `FileNotFoundError`, or `TimeoutExpired`. -/
inductive ProcResult where
  | completed (returncode : Int) (stdout stderr : String)
  | fileNotFound
  | timedOut
  deriving DecidableEq, Repr

/-- The `run` utility of `_utils.py` (its Python name is a Lean keyword, so it
is embedded as `runCmd`): returns
`(p.returncode, p.stdout.strip(), p.stderr.strip())` on completion,
`(127, "", "<executable or argv[0]>: not found")` on `FileNotFoundError`, and
`(124, "", "timeout")` on timeout.  The process outcome is an explicit input. -/
def runCmd (argv : List String) (executable : Option String) (res : ProcResult) :
    Int × String × String :=
  match res with
  | .completed rc out err => (rc, pyStripS out, pyStripS err)
  | .fileNotFound => (127, "", pyOrStr executable (argv.headD "") ++ ": not found")
  | .timedOut => (124, "", "timeout")

/-- `_utils.which_any`: keep the names that resolve on the search path.
`which` abstracts `shutil.which`'s truthiness. -/
def which_any (which : String → Bool) (names : List String) : List String :=
  names.filter which

/-! ## Shared catalog (`PKG_BINARIES`, identical in `app.py` and `__init__.py`) -/

def PKG_BINARIES : List String :=
  ["apt", "apt-get", "dnf", "yum", "zypper", "pacman", "apk", "xbps-install",
   "emerge", "nix", "nix-env", "swupd", "eopkg", "urpmi"]

/-! ## Linker locator (`_find_dynamic_linkers`), shared by both modules.
The glob expansion and file/permission filtering are filesystem effects; the
deduplicated candidate set (in its Python set-iteration order) is the input
`found`.  The ranking logic is embedded. -/

/-- The Python sort key `lambda x: (0 if mach and mach in x else 1, len(x))`. -/
def rankKey (mach : String) (x : String) : Nat × Nat :=
  (if !(mach == "") && containsS x mach then 0 else 1, x.length)

/-- Boolean "key less-or-equal" (lexicographic on the two-component key),
the comparison under Python's ascending stable sort. -/
def rankLe (mach : String) (a b : String) : Bool :=
  decide ((rankKey mach a).1 < (rankKey mach b).1 ∨
    ((rankKey mach a).1 = (rankKey mach b).1 ∧ (rankKey mach a).2 ≤ (rankKey mach b).2))

/-- `_find_dynamic_linkers`: stable ascending sort of the candidate set by the
two-component key.  Python's `list.sort` is a stable sort; it is modelled by
insertion sort, which is extensionally equal to every stable sort under the
same total preorder. -/
def find_dynamic_linkers (mach : String) (found : List String) : List String :=
  List.insertionSort (rankLe mach · · = true) found

/-! ## Libc classifier (`_detect_libc` in `app.py`, `detect_libc` in `__init__.py`;
both bodies are identical) -/

/-- `LibcInfo` dataclass. -/
structure LibcInfo where
  family : String := "unknown"
  version : Option String := none
  selected_linker : String := ""
  detector : Option String := none
  deriving DecidableEq, Repr

/-- The token `"musl"`. -/
def muslTok : List Char := ['m', 'u', 's', 'l']

/-- The token `"glibc"`. -/
def glibcTok : List Char := ['g', 'l', 'i', 'b', 'c']

/-- The token `"gnu c library"`. -/
def gnuTok : List Char := ['g', 'n', 'u', ' ', 'c', ' ', 'l', 'i', 'b', 'r', 'a', 'r', 'y']

/-- The token `"ld-linux"`. -/
def ldLinuxTok : List Char := ['l', 'd', '-', 'l', 'i', 'n', 'u', 'x']

/-- Semantics of the version tail `[^0-9]*([0-9]+\.[0-9]+(?:\.[0-9]+)?)` of both
version regexes, attempted at a fixed position: skip the (unique maximal) run
of non-digits, then require `digits '.' digits` with an optional `'.' digits`;
greedy digit runs.  Returns the captured group, or `none` when the pattern
cannot match at this position (Python then advances the search start). -/
def matchVerAt (l : List Char) : Option (List Char) :=
  let l1 := l.dropWhile (fun c => !c.isDigit)
  let d1 := l1.takeWhile Char.isDigit
  if d1.isEmpty then none
  else
    match l1.drop d1.length with
    | '.' :: r2 =>
      let d2 := r2.takeWhile Char.isDigit
      if d2.isEmpty then none
      else
        match r2.drop d2.length with
        | '.' :: r4 =>
          let d3 := r4.takeWhile Char.isDigit
          if d3.isEmpty then some (d1 ++ '.' :: d2) else some (d1 ++ '.' :: d2 ++ '.' :: d3)
        | _ => some (d1 ++ '.' :: d2)
    | _ => none

/-- `re.search` for `musl[^0-9]*([0-9]+\.[0-9]+(?:\.[0-9]+)?)` over an
already-lowercased text: try each start position left to right; a start must
begin with the literal `musl`; the first position where the version tail also
matches wins. -/
def searchMusl : List Char → Option (List Char)
  | [] => none
  | c :: t =>
    if muslTok.isPrefixOf (c :: t) then
      match matchVerAt ((c :: t).drop 4) with
      | some v => some v
      | none => searchMusl t
    else searchMusl t

/-- `re.search` for `(?:glibc|gnu c library)[^\d]*(\d+\.\d+(?:\.\d+)?)` over an
already-lowercased text.  The two literal alternatives can never both match at
one position (they differ at their second character), so a failed tail moves
the search to the next start position. -/
def searchGlib : List Char → Option (List Char)
  | [] => none
  | c :: t =>
    if glibcTok.isPrefixOf (c :: t) then
      match matchVerAt ((c :: t).drop 5) with
      | some v => some v
      | none => searchGlib t
    else if gnuTok.isPrefixOf (c :: t) then
      match matchVerAt ((c :: t).drop 13) with
      | some v => some v
      | none => searchGlib t
    else searchGlib t

/-- `parse_musl_ver`: the captured group of the musl version regex, `""` when
there is no match.  `re.IGNORECASE` is realised by lowering the text (the
captured group is digits and dots, unaffected by case). -/
def parse_musl_ver (text : List Char) : String :=
  ⟨(searchMusl (lowerL text)).getD []⟩

/-- `parse_glib_ver`: the captured group of the glibc version regex, `""` when
there is no match. -/
def parse_glib_ver (text : List Char) : String :=
  ⟨(searchGlib (lowerL text)).getD []⟩

/-- `"musl" in combined.lower()`. -/
def hasMusl (c : List Char) : Bool := occursIn muslTok (lowerL c)

/-- The glibc guard: `"glibc" in combined.lower() or "gnu c library" in
combined.lower() or "ld-linux" in Path(sel).name`. -/
def hasGlibcMarker (sel : String) (c : List Char) : Bool :=
  occursIn glibcTok (lowerL c) || occursIn gnuTok (lowerL c) || occursIn ldLinuxTok (pathName sel)

/-- The first cascade block of `_detect_libc` (lines 120-137 of `app.py`):
classification from the combined `--version` text of the selected linker.
`none` means "fall through to the `ldd --version` probe". -/
def classifySelfReport (sel : String) (c : List Char) : Option LibcInfo :=
  if hasMusl c then
    some { family := "musl", version := some (parse_musl_ver c),
           selected_linker := sel, detector := some "ld--version" }
  else if hasGlibcMarker sel c then
    some { family := "glibc", version := some (parse_glib_ver c),
           selected_linker := sel, detector := some "ld--version" }
  else none

/-- Environment of `_detect_libc`: the deduplicated linker-candidate set (the
locator's filesystem part), the Command Runner at its interface contract
(combined `(stdout, stderr, exit)` as the caller consumes it), and
`platform.libc_ver()`. -/
structure LibcEnv where
  foundLinkers : List String
  runSelfReport : String → String × String × Int
  runLddWithExecutable : String → String × String × Int
  platformLibcVer : String × String

/-- `(out.decode() + "\n" + err.decode()).strip()`. -/
def combinedOf (p : String × String × Int) : List Char :=
  pyStrip (p.1 ++ "\n" ++ p.2.1).toList

/-- The `platform.libc_ver()` fallback result (lines 149-155 of `app.py`). -/
def osFallback (env : LibcEnv) (sel : String) : LibcInfo :=
  { family := env.platformLibcVer.1, version := some env.platformLibcVer.2,
    selected_linker := sel, detector := some "platform.libc_ver" }

/-- `_detect_libc`.  `sel = linkers[0] if linkers else None; if sel: ...`;
a missing (or falsy) head goes straight to the OS fallback with
`selected_linker = sel or "" = ""`. -/
def detect_libc (mach : String) (env : LibcEnv) : LibcInfo :=
  let sel := (find_dynamic_linkers mach env.foundLinkers).headD ""
  if sel == "" then osFallback env ""
  else
    match classifySelfReport sel (combinedOf (env.runSelfReport sel)) with
    | some info => info
    | none =>
      let c2 := combinedOf (env.runLddWithExecutable sel)
      if hasMusl c2 then
        { family := "musl", version := some (parse_musl_ver c2),
          selected_linker := sel, detector := some "ldd-mode" }
      else osFallback env sel

/-! ## Ldd-recipe deriver (`_ldd_equivalent` / `ldd_equivalent`, identical bodies) -/

/-- `LddInfo` dataclass. -/
structure LddInfo where
  method : String := "unknown"
  cmd_template : Option (List String) := none
  executable : Option String := none
  deriving DecidableEq, Repr

/-- `_ldd_equivalent(libc_family, linker)`. -/
def ldd_equivalent (libc_family : String) (linker : String) : LddInfo :=
  if linker == "" then {}
  else if libc_family == "glibc" then
    { method := "glibc-ld--list", cmd_template := some [linker, "--list", "{target}"],
      executable := none }
  else if libc_family == "musl" then
    { method := "musl-ld-argv0-ldd", cmd_template := some ["ldd", "{target}"],
      executable := some linker }
  else {}

/-- Modelled from the spec: the spec's `LddEquivalent.method` enum
`{glibc-style, musl-style, none}` (spec section 3) named abstractly, mapped onto
the implementation's literal method tags.  Used to compare the spec's
vocabulary with the code's values. -/
def specLddMethodName (m : String) : String :=
  if m == "glibc-ld--list" then "glibc-style"
  else if m == "musl-ld-argv0-ldd" then "musl-style"
  else "none"

/-- Modelled from the spec: the spec's `LibcInfo.detection_method` enum
`{linker-self-report, ldd-fallback, os-provided}` (spec section 3), mapped onto
the implementation's literal `detector` tags. -/
def specDetectionMethodName (d : Option String) : String :=
  match d with
  | some "ld--version" => "linker-self-report"
  | some "ldd-mode" => "ldd-fallback"
  | some "platform.libc_ver" => "os-provided"
  | _ => ""

/-! ## Sandbox probe (`_detect_sandbox` / `detect_sandbox`, identical bodies) -/

/-- Environment variables and the marker file consulted by the sandbox probe. -/
structure SandboxEnv where
  SNAP : Option String
  SNAP_NAME : Option String
  FLATPAK_ID : Option String
  FLATPAK_SESSION_HELPER : Option String
  flatpakInfoFileExists : Bool

/-- `_detect_sandbox`, returning the `(snap, flatpak)` pair of the result dict. -/
def detect_sandbox (e : SandboxEnv) : Bool × Bool :=
  (truthyEnvVar e.SNAP || truthyEnvVar e.SNAP_NAME,
   truthyEnvVar e.FLATPAK_ID || truthyEnvVar e.FLATPAK_SESSION_HELPER
     || e.flatpakInfoFileExists)

/-! ## Package-manager probe (`_choose_package_manager` / `choose_package_manager`,
identical bodies) -/

/-- The result dict `{"packages": available_bins, "available": available_names}`. -/
structure PmInfo where
  packages : List String
  available : List String
  deriving DecidableEq, Repr

/-- `_choose_package_manager`: filter the catalog through `shutil.which`,
resolve each surviving *name* through `Path(...).resolve()` (abstracted as
`resolvePath`), raise `FileNotFoundError` when nothing resolved. -/
def choose_package_manager (which : String → Bool) (resolvePath : String → String) :
    Except PyErr PmInfo :=
  let available_bins := which_any which PKG_BINARIES
  let available_names := available_bins.map resolvePath
  if available_bins.isEmpty then .error .fileNotFound
  else .ok { packages := available_bins, available := available_names }

/-! ## Distro probe (`parse_os_release` in `__init__.py`) -/

/-- One fragment of `line.split("=")`, unpacked by `for k, v in line.split("=")`:
a Python string iterates into its characters, so the unpack succeeds exactly
when the fragment has two characters, and raises `ValueError` otherwise. -/
def unpack2 (f : List Char) : Except PyErr (Char × Char) :=
  match f with
  | [k, v] => .ok (k, v)
  | _ => .error .valueError

/-- The dict comprehension
`{k: v[1:-2] for line in lines for k, v in line.split("=")}`, with Python dict
overwrite semantics realised by appending entries and looking the last one up. -/
def parse_os_release_lines (lines : List (List Char)) :
    Except PyErr (List (String × String)) :=
  lines.foldlM
    (fun d line =>
      (pySplitChar '=' line).foldlM
        (fun d f => do
          let kv ← unpack2 f
          pure (d ++ [(⟨[kv.1]⟩, ⟨pySlice [kv.2] 1 (-2)⟩)]))
        d)
    []

/-- Python `dict.get` over the entry list built by `parse_os_release_lines`
(the last binding of a key wins). -/
def pyDictGet (d : List (String × String)) (k : String) : Option String :=
  (d.reverse.find? (fun kv => kv.1 == k)).map (·.2)

/-- `parse_os_release`: read the first existing of `/etc/os-release` and
`/usr/lib/os-release` (their optional contents are explicit inputs), parse its
lines, raise `FileNotFoundError` when neither exists. -/
def parse_os_release (etcFile usrLibFile : Option String) :
    Except PyErr (List (String × String)) :=
  match etcFile with
  | some txt => parse_os_release_lines (pySplitlines txt)
  | none =>
    match usrLibFile with
    | some txt => parse_os_release_lines (pySplitlines txt)
    | none => .error .fileNotFound

/-- The five-field distro projection built by both orchestrators from a parsed
os-release mapping. -/
structure DistroMap where
  id : Option String
  name : Option String
  version_id : Option String
  pretty_name : Option String
  id_like : Option String
  deriving DecidableEq, Repr

/-- `{"id": osr.get("ID"), ..., "id_like": osr.get("ID_LIKE")}`. -/
def mkDistro (osr : List (String × String)) : DistroMap :=
  { id := pyDictGet osr "ID", name := pyDictGet osr "NAME",
    version_id := pyDictGet osr "VERSION_ID", pretty_name := pyDictGet osr "PRETTY_NAME",
    id_like := pyDictGet osr "ID_LIKE" }

/-! ## Orchestrator of `app.py` (`probe`) -/

/-- `ReportInfo` dataclass of `app.py`. -/
structure ReportInfo where
  os : String := ""
  kernel : String := ""
  supported : Bool := false
  machines : String := ""
  snap : Bool := false
  flatpak : Bool := false
  distro : Option DistroMap := none
  package_manager : Option PmInfo := none
  libc : Option LibcInfo := none
  ldd_equivalent : Option LddInfo := none
  deriving DecidableEq, Repr

/-- Host environment consumed by `probe`: `platform.*` values, the sandbox
environment, `platform.freedesktop_os_release()` (`none` models the `OSError`
raised when no os-release file exists), and the libc-probe environment. -/
structure ProbeEnv where
  osName : String
  kernelRelease : String
  machine : String
  sandbox : SandboxEnv
  freedesktopOsRelease : Option (List (String × String))
  libcPart : LibcEnv

/-- `probe` of `app.py`: build the base report, short-circuit on unsupported
OS, then fill the sandbox, distro (via the stdlib os-release parser, whose
`OSError` is not caught), libc and ldd-equivalent fields.
`_choose_package_manager` is never invoked. -/
def probe (env : ProbeEnv) : Except PyErr ReportInfo :=
  let report : ReportInfo :=
    { os := env.osName, kernel := env.kernelRelease,
      supported := lowerS env.osName == "linux", machines := env.machine }
  if !report.supported then .ok report
  else
    let sb := detect_sandbox env.sandbox
    match env.freedesktopOsRelease with
    | none => .error .osError
    | some osr =>
      let libc := detect_libc env.machine env.libcPart
      .ok { report with
            snap := sb.1, flatpak := sb.2, distro := some (mkDistro osr),
            libc := some libc,
            ldd_equivalent := some (ldd_equivalent libc.family libc.selected_linker) }

/-! ## Orchestrator of `__init__.py` (`collect_min_report`) -/

/-- The value stored under the report dict's `"distro"` key: the code stores
the distro mapping there first and the package-manager mapping later, so the
slot is a union of the two shapes. -/
inductive RVal where
  | distroMap (d : DistroMap)
  | pmMap (p : PmInfo)
  deriving DecidableEq, Repr

/-- The report dict built by `collect_min_report` (its exact key set). -/
structure MinReport where
  os : String
  kernel : String
  supported : Bool
  snap : Bool
  flatpak : Bool
  distro : Option RVal
  package_manager : Option RVal
  libc : Option LibcInfo
  ldd_equivalent : Option LddInfo
  deriving DecidableEq, Repr

/-- Host environment consumed by `collect_min_report`: `platform.*` values, the
sandbox environment, the optional contents of the two os-release paths,
`shutil.which` resolvability, `Path(...).resolve()`, and the libc-probe
environment. -/
structure CollectEnv where
  osName : String
  kernelRelease : String
  machine : String
  sandbox : SandboxEnv
  etcOsRelease : Option String
  usrLibOsRelease : Option String
  which : String → Bool
  resolvePath : String → String
  libcPart : LibcEnv

/-- `collect_min_report`: sequential assembly with no exception handling around
the sub-probes; the package-manager result is stored under the `"distro"` key
(line 256 of `__init__.py` reads `report["distro"] = pm`). -/
def collect_min_report (env : CollectEnv) : Except PyErr MinReport :=
  let report : MinReport :=
    { os := env.osName, kernel := env.kernelRelease,
      supported := lowerS env.osName == "linux",
      snap := false, flatpak := false, distro := none, package_manager := none,
      libc := none, ldd_equivalent := none }
  if !report.supported then .ok report
  else
    let sb := detect_sandbox env.sandbox
    match parse_os_release env.etcOsRelease env.usrLibOsRelease with
    | .error e => .error e
    | .ok osr =>
      let report := { report with
                      snap := sb.1, flatpak := sb.2,
                      distro := some (.distroMap (mkDistro osr)) }
      match choose_package_manager env.which env.resolvePath with
      | .error e => .error e
      | .ok pm =>
        let report := { report with distro := some (.pmMap pm) }
        let libc := detect_libc env.machine env.libcPart
        .ok { report with
              libc := some libc,
              ldd_equivalent := some (ldd_equivalent libc.family libc.selected_linker) }

/-! ## Concrete environments used to instantiate the theorems -/

/-- A sandbox environment with nothing set. -/
def noSandbox : SandboxEnv :=
  { SNAP := none, SNAP_NAME := none, FLATPAK_ID := none,
    FLATPAK_SESSION_HELPER := none, flatpakInfoFileExists := false }

/-- A libc environment with no linker candidates and a glibc answer from
`platform.libc_ver()`. -/
def quietLibcEnv : LibcEnv :=
  { foundLinkers := [], runSelfReport := fun _ => ("", "", 0),
    runLddWithExecutable := fun _ => ("", "", 0), platformLibcVer := ("glibc", "2.39") }

/-- A musl linker whose self-report carries two version-like occurrences. -/
def envMuslTwice : LibcEnv :=
  { foundLinkers := ["/lib/ld-musl-x86_64.so.1"],
    runSelfReport := fun _ => ("musl 10.0 musl 1.2.3", "", 1),
    runLddWithExecutable := fun _ => ("", "", 0),
    platformLibcVer := ("", "") }

/-- A musl linker printing `musl 1.2.3`. -/
def envMusl123 : LibcEnv :=
  { foundLinkers := ["/lib/ld-musl-x86_64.so.1"],
    runSelfReport := fun _ => ("musl 1.2.3", "", 1),
    runLddWithExecutable := fun _ => ("", "", 0),
    platformLibcVer := ("", "") }

/-- A glibc linker printing a glibc banner ending in version 2.35. -/
def envGlibc235 : LibcEnv :=
  { foundLinkers := ["/lib64/ld-linux-x86-64.so.2"],
    runSelfReport := fun _ => ("ld.so (GNU C Library) stable release version 2.35.", "", 0),
    runLddWithExecutable := fun _ => ("", "", 0),
    platformLibcVer := ("", "") }

/-- A musl linker whose self-report has the family marker but no version. -/
def envMuslNoVer : LibcEnv :=
  { foundLinkers := ["/lib/ld-musl-x86_64.so.1"],
    runSelfReport := fun _ => ("musl loader", "", 1),
    runLddWithExecutable := fun _ => ("", "", 0),
    platformLibcVer := ("", "") }

/-- No linker candidates at all. -/
def envNoLinkers : LibcEnv :=
  { foundLinkers := [], runSelfReport := fun _ => ("", "", 0),
    runLddWithExecutable := fun _ => ("", "", 0), platformLibcVer := ("glibc", "2.35") }

/-- A linker that is found but matches no cascade rule: its name lacks
`ld-linux` and neither probe output mentions musl or glibc. -/
def envNoCascadeMatch : LibcEnv :=
  { foundLinkers := ["/lib64/ld64.so.2"],
    runSelfReport := fun _ => ("unrecognized output", "", 1),
    runLddWithExecutable := fun _ => ("no useful text", "", 1),
    platformLibcVer := ("libc", "") }

/-- A supported Linux host with neither os-release file present. -/
def envNoOsRelease : CollectEnv :=
  { osName := "Linux", kernelRelease := "6.8.0", machine := "x86_64",
    sandbox := noSandbox, etcOsRelease := none, usrLibOsRelease := none,
    which := fun _ => false, resolvePath := fun s => s, libcPart := quietLibcEnv }

/-- A supported Linux host whose os-release content survives the parser
(every `=`-separated fragment has exactly two characters) and where `apt`
resolves on the search path. -/
def envLinuxApt : CollectEnv :=
  { osName := "Linux", kernelRelease := "6.8.0", machine := "x86_64",
    sandbox := noSandbox, etcOsRelease := some "ID=ab", usrLibOsRelease := none,
    which := fun n => n == "apt", resolvePath := fun n => "/resolved/" ++ n,
    libcPart := quietLibcEnv }

/-- A supported Linux host for `app.probe`, with a readable os-release. -/
def envLinuxFull : ProbeEnv :=
  { osName := "Linux", kernelRelease := "6.8.0", machine := "x86_64",
    sandbox := noSandbox, freedesktopOsRelease := some [("ID", "ubuntu")],
    libcPart := quietLibcEnv }

/-- The report `app.probe` produces on `envLinuxFull`. -/
def reportLinuxFull : ReportInfo :=
  { os := "Linux", kernel := "6.8.0", supported := true, machines := "x86_64",
    snap := false, flatpak := false,
    distro := some { id := some "ubuntu", name := none, version_id := none,
                     pretty_name := none, id_like := none },
    package_manager := none,
    libc := some { family := "glibc", version := some "2.39", selected_linker := "",
                   detector := some "platform.libc_ver" },
    ldd_equivalent := some { method := "unknown", cmd_template := none, executable := none } }

/-- An unsupported (Windows) host for `app.probe`. -/
def envWindows : ProbeEnv :=
  { osName := "Windows", kernelRelease := "10", machine := "AMD64",
    sandbox := noSandbox, freedesktopOsRelease := none, libcPart := quietLibcEnv }

/-! ## Helper lemmas -/

/-- A successful musl-version search implies the `musl` token occurs in the text. -/
theorem occursIn_of_searchMusl (l : List Char) (v : List Char)
    (h : searchMusl l = some v) : occursIn muslTok l = true := by
  induction l with
  | nil => simp [searchMusl] at h
  | cons c t ih =>
    by_cases hp : muslTok.isPrefixOf (c :: t)
    · simp [occursIn, hp]
    · simp only [searchMusl, hp, if_false, Bool.false_eq_true, ite_false] at h
      have := ih h
      simp [occursIn, this]

/-- A successful glibc-version search implies one of the two literal markers
occurs in the text. -/
theorem occursIn_of_searchGlib (l : List Char) (v : List Char)
    (h : searchGlib l = some v) :
    (occursIn glibcTok l || occursIn gnuTok l) = true := by
  induction l with
  | nil => simp [searchGlib] at h
  | cons c t ih =>
    by_cases hp1 : glibcTok.isPrefixOf (c :: t)
    · simp [occursIn, hp1]
    · by_cases hp2 : gnuTok.isPrefixOf (c :: t)
      · simp [occursIn, hp2]
      · simp only [searchGlib, hp1, hp2, Bool.false_eq_true, ite_false] at h
        have h' : occursIn glibcTok t = true ∨ occursIn gnuTok t = true := by
          simpa using ih h
        rcases h' with h1 | h2
        · simp [occursIn, h1]
        · simp [occursIn, h2]

/-- The ranking comparison is transitive. -/
theorem rankLe_trans (mach : String) (a b c : String)
    (h1 : rankLe mach a b) (h2 : rankLe mach b c) : rankLe mach a c := by
  simp only [rankLe, decide_eq_true_eq] at h1 h2 ⊢
  omega

/-- The ranking comparison is total. -/
theorem rankLe_total (mach : String) (a b : String) :
    rankLe mach a b = true ∨ rankLe mach b a = true := by
  simp only [rankLe, decide_eq_true_eq]
  omega

/-! ## Claim theorems -/

/-- Claim C3 (code bug witnessed): `run_cmd` at a non-existent binary returns
the triple `(127, "", "<name>: not found")` and at a timeout
`(124, "", "timeout")` — the exit code is the FIRST component and the texts are
strings, whereas the spec's process-invocation contract (and the consumer
`_detect_libc`, which unpacks `out, err, _` and calls `.decode()`) expects
`(stdout: bytes, stderr: bytes, exit_code)`. -/
theorem runCmd_triple_order_and_sentinels :
    runCmd ["missing-bin"] none .fileNotFound = (127, "", "missing-bin: not found") ∧
    runCmd ["sleepy"] none .timedOut = (124, "", "timeout") ∧
    (runCmd ["missing-bin"] none .fileNotFound).1 = 127 ∧
    (runCmd ["sleepy"] none .timedOut).1 = 124 :=
  ⟨rfl, rfl, rfl, rfl⟩

/-- Claim C4: for every fixed candidate list and machine string the ranking is
a permutation of its input, sorted ascending by the two-component key (paths
containing the architecture string first, then shorter paths first), and — the
ranking being a pure function — re-running it yields the identical order. -/
theorem linker_ranking_sorted_and_deterministic (mach : String) (found : List String) :
    (find_dynamic_linkers mach found).Perm found ∧
    (find_dynamic_linkers mach found).Pairwise (fun a b =>
      (rankKey mach a).1 < (rankKey mach b).1 ∨
      ((rankKey mach a).1 = (rankKey mach b).1 ∧ a.length ≤ b.length)) ∧
    find_dynamic_linkers mach found = find_dynamic_linkers mach found := by
  haveI : IsTotal String (rankLe mach · · = true) := ⟨fun a b => rankLe_total mach a b⟩
  haveI : IsTrans String (rankLe mach · · = true) :=
    ⟨fun a b c h1 h2 => rankLe_trans mach a b c h1 h2⟩
  refine ⟨List.perm_insertionSort _ found, ?_, rfl⟩
  have hs := List.sorted_insertionSort (rankLe mach · · = true) found
  exact hs.imp (fun h => by simpa [rankLe, rankKey, decide_eq_true_eq] using h)

/-- Claim C5: the ldd-recipe deriver is a pure function of
`(family, linker)`; `glibc` with a linker yields the glibc-style method
(implementation tag `"glibc-ld--list"`) with template
`[linker, "--list", "{target}"]`; `musl` with a linker yields
`["ldd", "{target}"]` with the linker as executable override; any other family
or an empty linker yields the default recipe, whose method tag `"unknown"` is
the spec's `method = none` (no template). -/
theorem ldd_equivalent_pure_cases (family linker : String) :
    (∀ f2 l2, family = f2 → linker = l2 →
      ldd_equivalent family linker = ldd_equivalent f2 l2) ∧
    (family = "glibc" → linker ≠ "" →
      ldd_equivalent family linker =
        { method := "glibc-ld--list", cmd_template := some [linker, "--list", "{target}"],
          executable := none }) ∧
    (family = "musl" → linker ≠ "" →
      ldd_equivalent family linker =
        { method := "musl-ld-argv0-ldd", cmd_template := some ["ldd", "{target}"],
          executable := some linker }) ∧
    ((family ≠ "glibc" ∧ family ≠ "musl") ∨ linker = "" →
      ldd_equivalent family linker =
        { method := "unknown", cmd_template := none, executable := none } ∧
      specLddMethodName (ldd_equivalent family linker).method = "none") := by
  refine ⟨?_, ?_, ?_, ?_⟩
  · intro f2 l2 h1 h2; rw [h1, h2]
  · intro hf hl
    subst hf
    simp [ldd_equivalent, beq_eq_false_iff_ne.mpr hl]
  · intro hf hl
    subst hf
    simp [ldd_equivalent, beq_eq_false_iff_ne.mpr hl]
  · intro h
    have he : ldd_equivalent family linker =
        { method := "unknown", cmd_template := none, executable := none } := by
      rcases h with ⟨hf1, hf2⟩ | hl
      · by_cases hl : linker = ""
        · subst hl; simp [ldd_equivalent]
        · simp [ldd_equivalent, beq_eq_false_iff_ne.mpr hl,
            beq_eq_false_iff_ne.mpr hf1, beq_eq_false_iff_ne.mpr hf2]
      · subst hl; simp [ldd_equivalent]
    exact ⟨he, by rw [he]; rfl⟩

/-- Witness for claim C5 at concrete inputs. -/
theorem ldd_equivalent_pure_cases_witness :
    ldd_equivalent "glibc" "/lib64/ld-linux-x86-64.so.2" =
      { method := "glibc-ld--list",
        cmd_template := some ["/lib64/ld-linux-x86-64.so.2", "--list", "{target}"],
        executable := none } ∧
    ldd_equivalent "musl" "/lib/ld-musl-x86_64.so.1" =
      { method := "musl-ld-argv0-ldd", cmd_template := some ["ldd", "{target}"],
        executable := some "/lib/ld-musl-x86_64.so.1" } ∧
    (ldd_equivalent "unknown" "" =
      { method := "unknown", cmd_template := none, executable := none } ∧
     specLddMethodName (ldd_equivalent "unknown" "").method = "none") :=
  ⟨(ldd_equivalent_pure_cases "glibc" "/lib64/ld-linux-x86-64.so.2").2.1 rfl (by decide),
   (ldd_equivalent_pure_cases "musl" "/lib/ld-musl-x86_64.so.1").2.2.1 rfl (by decide),
   (ldd_equivalent_pure_cases "unknown" "").2.2.2 (Or.inr rfl)⟩

/-- Claim C6 (code bug witnessed): on a supported Linux host where neither
os-release file exists, the distro probe's `FileNotFoundError` propagates out
of `collect_min_report` — the assembler fails after the OS-support decision
instead of degrading the distro field. -/
theorem collect_min_report_distro_error_propagates :
    (lowerS envNoOsRelease.osName == "linux") = true ∧
    collect_min_report envNoOsRelease = .error .fileNotFound :=
  ⟨rfl, rfl⟩

/-- Claim C7 (code bug witnessed): on the documented
`ID=ubuntu\nNAME="Ubuntu"\nVERSION_ID="22.04"` content, `parse_os_release`
raises `ValueError` (it unpacks each `=`-separated fragment into two
characters); even on content it can digest it produces one-character keys with
mangled values rather than the `KEY -> VALUE` mapping. -/
theorem parse_os_release_raises_on_spec_format :
    parse_os_release (some "ID=ubuntu\nNAME=\"Ubuntu\"\nVERSION_ID=\"22.04\"") none =
      .error .valueError ∧
    parse_os_release (some "ID=ab") none = .ok [("I", ""), ("a", "")] :=
  ⟨rfl, rfl⟩

/-- Claim C10 (code bug witnessed): on a supported host with a parsable
os-release and `apt` resolvable, `collect_min_report` stores the
package-manager mapping under the `distro` key (overwriting the distro probe's
result) and leaves `package_manager` null. -/
theorem collect_min_report_package_manager_overwrites_distro :
    collect_min_report envLinuxApt = .ok
      { os := "Linux", kernel := "6.8.0", supported := true, snap := false, flatpak := false,
        distro := some (.pmMap { packages := ["apt"], available := ["/resolved/apt"] }),
        package_manager := none,
        libc := some { family := "glibc", version := some "2.39", selected_linker := "",
                       detector := some "platform.libc_ver" },
        ldd_equivalent := some { method := "unknown", cmd_template := none,
                                 executable := none } } :=
  rfl

/-- Claim C1 counterexample: the combined text `"musl 10.0 musl 1.2.3"`
contains `"musl 1.2.3"`, yet the classifier reports version `"10.0"` (the
regex takes the leftmost match), so "contains `musl 1.2.3` implies
version = `1.2.3`" is false as stated. -/
theorem classifier_contains_version_counterexample :
    occursIn "musl 1.2.3".toList
      (combinedOf (envMuslTwice.runSelfReport "/lib/ld-musl-x86_64.so.1")) = true ∧
    (detect_libc "x86_64" envMuslTwice).family = "musl" ∧
    (detect_libc "x86_64" envMuslTwice).version = some "10.0" ∧
    ¬((detect_libc "x86_64" envMuslTwice).version = some "1.2.3") := by
  refine ⟨by decide, by decide, by decide, by decide⟩

/-- Claim C1 (amended): the classifier decides the family from the textual
markers — any text whose leftmost musl-version match exists is classified
musl with exactly that version, and when `musl` is absent a successful
glibc-version match yields glibc with that version; in particular the
combined texts `"musl 1.2.3"` and
`"ld.so (GNU C Library) stable release version 2.35."` yield
`(musl, "1.2.3")` and `(glibc, "2.35")`, and a marker without any
dotted-numeric version yields the empty version string rather than an
error. -/
theorem classifier_family_markers_and_leftmost_version :
    (∀ (sel : String) (c : List Char) (v : List Char),
      searchMusl (lowerL c) = some v →
      classifySelfReport sel c =
        some { family := "musl", version := some ⟨v⟩, selected_linker := sel,
               detector := some "ld--version" }) ∧
    (∀ (sel : String) (c : List Char) (v : List Char),
      hasMusl c = false →
      searchGlib (lowerL c) = some v →
      classifySelfReport sel c =
        some { family := "glibc", version := some ⟨v⟩, selected_linker := sel,
               detector := some "ld--version" }) ∧
    detect_libc "x86_64" envMusl123 =
      { family := "musl", version := some "1.2.3",
        selected_linker := "/lib/ld-musl-x86_64.so.1", detector := some "ld--version" } ∧
    detect_libc "x86_64" envGlibc235 =
      { family := "glibc", version := some "2.35",
        selected_linker := "/lib64/ld-linux-x86-64.so.2", detector := some "ld--version" } ∧
    detect_libc "x86_64" envMuslNoVer =
      { family := "musl", version := some "",
        selected_linker := "/lib/ld-musl-x86_64.so.1", detector := some "ld--version" } := by
  refine ⟨?_, ?_, by decide, by decide, by decide⟩
  · intro sel c v h
    have hm : hasMusl c = true := occursIn_of_searchMusl (lowerL c) v h
    simp [classifySelfReport, hm, parse_musl_ver, h]
  · intro sel c v hm hg
    have hmark : (occursIn glibcTok (lowerL c) || occursIn gnuTok (lowerL c)) = true :=
      occursIn_of_searchGlib (lowerL c) v hg
    have h' : occursIn glibcTok (lowerL c) = true ∨ occursIn gnuTok (lowerL c) = true := by
      simpa using hmark
    have hmark2 : hasGlibcMarker sel c = true := by
      rcases h' with h1 | h2
      · simp [hasGlibcMarker, h1]
      · simp [hasGlibcMarker, h2]
    simp [classifySelfReport, hm, hmark2, parse_glib_ver, hg]

/-- Witness for claim C1 at a concrete text. -/
theorem classifier_family_markers_witness :
    searchMusl (lowerL "musl 1.2.3".toList) = some "1.2.3".toList ∧
    classifySelfReport "/lib/ld-musl-x86_64.so.1" "musl 1.2.3".toList =
      some { family := "musl", version := some "1.2.3",
             selected_linker := "/lib/ld-musl-x86_64.so.1",
             detector := some "ld--version" } :=
  ⟨by decide,
   classifier_family_markers_and_leftmost_version.1
     "/lib/ld-musl-x86_64.so.1" "musl 1.2.3".toList "1.2.3".toList (by decide)⟩

/-- Claim C2: with no linker candidate `_detect_libc` falls back to
`platform.libc_ver()`, records no selected linker and tags the result
`detector = "platform.libc_ver"` (the spec's `detection_method = os-provided`);
with a candidate that matches no cascade rule it produces the same fallback
but records the linker that was tried. -/
theorem detect_libc_os_fallback :
    (∀ (mach : String) (env : LibcEnv), env.foundLinkers = [] →
      detect_libc mach env =
        { family := env.platformLibcVer.1, version := some env.platformLibcVer.2,
          selected_linker := "", detector := some "platform.libc_ver" } ∧
      specDetectionMethodName (detect_libc mach env).detector = "os-provided") ∧
    (∀ (mach : String) (env : LibcEnv) (sel : String) (rest : List String),
      find_dynamic_linkers mach env.foundLinkers = sel :: rest →
      sel ≠ "" →
      classifySelfReport sel (combinedOf (env.runSelfReport sel)) = none →
      hasMusl (combinedOf (env.runLddWithExecutable sel)) = false →
      detect_libc mach env =
        { family := env.platformLibcVer.1, version := some env.platformLibcVer.2,
          selected_linker := sel, detector := some "platform.libc_ver" } ∧
      specDetectionMethodName (detect_libc mach env).detector = "os-provided") := by
  constructor
  · intro mach env h
    have h0 : find_dynamic_linkers mach env.foundLinkers = [] := by
      rw [h]; rfl
    have he : detect_libc mach env =
        { family := env.platformLibcVer.1, version := some env.platformLibcVer.2,
          selected_linker := "", detector := some "platform.libc_ver" } := by
      simp [detect_libc, h0, osFallback]
    exact ⟨he, by rw [he]; rfl⟩
  · intro mach env sel rest hf hs hc hm
    have he : detect_libc mach env =
        { family := env.platformLibcVer.1, version := some env.platformLibcVer.2,
          selected_linker := sel, detector := some "platform.libc_ver" } := by
      simp [detect_libc, hf, beq_eq_false_iff_ne.mpr hs, hc, hm, osFallback]
    exact ⟨he, by rw [he]; rfl⟩

/-- Witness for claim C2: a host with no linker candidates, and a host whose
only candidate matches no cascade rule. -/
theorem detect_libc_os_fallback_witness :
    (detect_libc "x86_64" envNoLinkers =
      { family := "glibc", version := some "2.35", selected_linker := "",
        detector := some "platform.libc_ver" } ∧
     specDetectionMethodName (detect_libc "x86_64" envNoLinkers).detector = "os-provided") ∧
    (detect_libc "s390x" envNoCascadeMatch =
      { family := "libc", version := some "", selected_linker := "/lib64/ld64.so.2",
        detector := some "platform.libc_ver" } ∧
     specDetectionMethodName (detect_libc "s390x" envNoCascadeMatch).detector
       = "os-provided") :=
  ⟨detect_libc_os_fallback.1 "x86_64" envNoLinkers rfl,
   detect_libc_os_fallback.2 "s390x" envNoCascadeMatch "/lib64/ld64.so.2" []
     (by decide) (by decide) (by decide) (by decide)⟩

/-- Claim C8 (code bug witnessed): `app.probe` never invokes the
package-manager probe, so every report it returns has a null
`package_manager` field — even on a Linux host where `apt` resolves. -/
theorem probe_package_manager_always_none :
    ∀ (env : ProbeEnv) (r : ReportInfo), probe env = .ok r → r.package_manager = none := by
  intro env r h
  simp only [probe] at h
  split at h
  · injection h with h'
    subst h'
    rfl
  · split at h
    · exact Except.noConfusion h
    · injection h with h'
      subst h'
      rfl

/-- Witness for claim C8: a fully equipped Linux host still gets
`package_manager = none`. -/
theorem probe_package_manager_always_none_witness :
    probe envLinuxFull = .ok reportLinuxFull ∧ reportLinuxFull.package_manager = none :=
  ⟨rfl, probe_package_manager_always_none envLinuxFull reportLinuxFull rfl⟩

/-- Claim C9: the report's `supported` flag is true exactly when the
lower-cased OS name is `"linux"`, and on any other OS `probe` short-circuits,
returning the base report whose Linux-specific fields are all at their
null/false defaults. -/
theorem probe_supported_iff_linux_and_short_circuit :
    (∀ env : ProbeEnv, lowerS env.osName ≠ "linux" →
      probe env = .ok
        { os := env.osName, kernel := env.kernelRelease, supported := false,
          machines := env.machine, snap := false, flatpak := false, distro := none,
          package_manager := none, libc := none, ldd_equivalent := none }) ∧
    (∀ (env : ProbeEnv) (r : ReportInfo), probe env = .ok r →
      (r.supported = true ↔ lowerS env.osName = "linux")) := by
  constructor
  · intro env h
    have hb : (lowerS env.osName == "linux") = false := beq_eq_false_iff_ne.mpr h
    simp [probe, hb]
  · intro env r h
    by_cases hb : lowerS env.osName = "linux"
    · have hbe : (lowerS env.osName == "linux") = true := beq_iff_eq.mpr hb
      rcases hosr : env.freedesktopOsRelease with _ | osr
      · simp [probe, hbe, hosr] at h
      · simp [probe, hbe, hosr] at h
        subst h
        simp [hb]
    · have hbe : (lowerS env.osName == "linux") = false := beq_eq_false_iff_ne.mpr hb
      simp [probe, hbe] at h
      subst h
      simp [hbe, hb]

/-- Witness for claim C9 on a Windows host. -/
theorem probe_supported_iff_linux_and_short_circuit_witness :
    probe envWindows = .ok
      { os := "Windows", kernel := "10", supported := false, machines := "AMD64",
        snap := false, flatpak := false, distro := none, package_manager := none,
        libc := none, ldd_equivalent := none } :=
  probe_supported_iff_linux_and_short_circuit.1 envWindows (by decide)

end Curioso
